import Mathlib

/-!
Verification development for the cspit report-collection service.

The service ingests browser security reports (legacy CSP payloads and modern
W3C Reporting API payloads), persists them keyed by endpoint tokens, and
serves a filtered, paginated query API.  The definitions below are a shallow
embedding of the request handlers:

* `postLegacyReport`  — POST /api/report/[endpoint] (src/src/app/api/report/[endpoint]/route.ts)
* `postV1Report`      — POST /api/v1/report/[endpoint] (src/src/app/api/v1/report/[endpoint]/route.ts)
* `deleteEndpointApi` — DELETE /api/endpoints (the endpoints route, part_003)
* `queryReports`      — GET /api/reports (src/src/app/api/reports/route.ts, after the auth gate)

JSON request bodies are modelled by the inductive `Json`; JavaScript property
access, truthiness, `||` defaulting and the `JSON.stringify` audit serialization
are modelled explicitly, including the fact that accessing a property of
`null` throws a TypeError (which the routes surface as HTTP 500 through
their catch-all handlers).
-/

/-- JSON values as decoded by `request.json()`.  Numbers are modelled as
integers; no claim depends on fractional values. -/
inductive Json where
  | null
  | bool (b : Bool)
  | num (n : Int)
  | str (s : String)
  | arr (elems : List Json)
  | obj (fields : List (String × Json))

/-- Result of a JavaScript property access: either a present JSON value or
`undefined` (absent key, or property access on a primitive). -/
inductive JsVal where
  | undef
  | val (j : Json)

/-- JavaScript truthiness of a JSON value: `null`, `false`, `0` and `""` are
falsy; arrays and objects are always truthy. -/
def Json.truthy : Json → Bool
  | .null => false
  | .bool b => b
  | .num n => n != 0
  | .str s => s != ""
  | .arr _ => true
  | .obj _ => true

/-- Truthiness of a property-access result; `undefined` is falsy. -/
def JsVal.truthy : JsVal → Bool
  | .undef => false
  | .val j => j.truthy

/-- Whether a JSON value is the literal `null`.  Property access on `null`
throws a TypeError in JavaScript, so the handlers test this explicitly. -/
def Json.isNull : Json → Bool
  | .null => true
  | _ => false

/-- JavaScript property access `v[k]` for a non-`null` value `v`: a key lookup
on objects, `undefined` on primitives and arrays.  (Access on `null` is
modelled at each call site via `Json.isNull`, since it throws.) -/
def jsField : Json → String → JsVal
  | .obj fields, k =>
      match fields.lookup k with
      | some v => JsVal.val v
      | none => JsVal.undef
  | _, _ => JsVal.undef

/-- Extract the value of a property-access result, with a default for
`undefined`. -/
def JsVal.getD : JsVal → Json → Json
  | .undef, d => d
  | .val j, _ => j

/-- The JavaScript defaulting idiom `v || d`: the value if truthy, else `d`.
Used by the routes as in `cspReport.disposition || 'enforce'`. -/
def JsVal.orElseJson : JsVal → Json → Json
  | .undef, d => d
  | .val j, d => if j.truthy then j else d

/-- The conditional-assignment idiom `if (v) data.field = v`: the field is set
only when the value is truthy (so falsy optional fields are never stored). -/
def JsVal.optIfTruthy : JsVal → Option Json
  | .undef => none
  | .val j => if j.truthy then some j else none

mutual

/-- Serialization of a JSON value, modelling the `JSON.stringify(body, ...)`
call that fills the `rawReport` audit field.  (Whitespace/indentation and
string escaping are abstracted; only which value is serialized matters.) -/
def Json.stringify : Json → String
  | .null => "null"
  | .bool true => "true"
  | .bool false => "false"
  | .num n => toString n
  | .str s => "\x22" ++ s ++ "\x22"
  | .arr xs => "[" ++ stringifyElems xs ++ "]"
  | .obj fs => "\x7b" ++ stringifyFields fs ++ "\x7d"

/-- Serialization of a JSON array's elements. -/
def stringifyElems : List Json → String
  | [] => ""
  | [x] => Json.stringify x
  | x :: y :: rest => Json.stringify x ++ "," ++ stringifyElems (y :: rest)

/-- Serialization of a JSON object's fields. -/
def stringifyFields : List (String × Json) → String
  | [] => ""
  | [(k, v)] => "\x22" ++ k ++ "\x22:" ++ Json.stringify v
  | (k, v) :: y :: rest =>
      "\x22" ++ k ++ "\x22:" ++ Json.stringify v ++ "," ++ stringifyFields (y :: rest)

end

/-- An ingestion endpoint.  Modelled from the spec: the Prisma schema itself is
not among the sources, so the endpoint carries the current schema's fields
`id`, `token` (the opaque URL credential) and `label`.  The v1 route's era
stored a single `name` key used in the ingestion URL; it is identified with
`token` here, since both play the role of the URL path key. -/
structure Endpoint where
  id : Nat
  token : String
  label : String

/-- A record of the unified `Report` collection (the `prisma.report` model):
generic fields from the modern Reporting API plus flattened CSP-specific
fields used by the unified legacy-CSP ingestion path.  `none` means the field
was not set on creation. -/
structure Report where
  id : Nat
  type : Json
  timestamp : Int
  endpointId : Nat
  url : Json
  userAgent : Option Json := none
  body : Option Json := none
  age : Option Json := none
  documentUri : Option Json := none
  referrer : Option Json := none
  violatedDirective : Option Json := none
  effectiveDirective : Option Json := none
  originalPolicy : Option Json := none
  disposition : Option Json := none
  blockedUri : Option Json := none
  lineNumber : Option Json := none
  columnNumber : Option Json := none
  sourceFile : Option Json := none
  statusCode : Option Json := none
  scriptSample : Option Json := none
  rawReport : Option String := none

/-- A record of the legacy `CspReport` collection (the `prisma.cspReport`
model), still written by the v1 route's legacy-CSP branch and targeted by the
endpoints route's cascade delete. -/
structure CspReport where
  id : Nat
  timestamp : Int
  endpointId : Nat
  documentUri : Json
  violatedDirective : Json
  effectiveDirective : Json
  originalPolicy : Json
  disposition : Json
  referrer : Option Json := none
  blockedUri : Option Json := none
  lineNumber : Option Json := none
  columnNumber : Option Json := none
  sourceFile : Option Json := none
  statusCode : Option Json := none
  scriptSample : Option Json := none
  userAgent : Option Json := none
  rawReport : String

/-- The persistent store: the endpoint registry plus the two report
collections.  `nextId` generates fresh record ids and `time` is the wall
clock used for the server-assigned `timestamp` on insert. -/
structure DB where
  endpoints : List Endpoint
  reports : List Report
  cspReports : List CspReport
  nextId : Nat
  time : Int

/-- The JSON body of a route's HTTP response, as one record with optional
fields (each route sets the fields its `NextResponse.json` payload carries). -/
structure ApiResponse where
  status : Nat
  error : Option String := none
  success : Bool := false
  id : Option Nat := none
  endpoint : Option String := none
  format : Option String := none
  reportsProcessed : Option Nat := none
  totalReports : Option Nat := none
  message : Option String := none

/-- Endpoint lookup used by the legacy token-gated route:
`prisma.endpoint.findUnique({ where: { token } })`. -/
def findEndpointByToken (db : DB) (token : String) : Option Endpoint :=
  db.endpoints.find? (fun e => e.token == token)

/-- The find-or-create block of the v1 route: look the endpoint up by the URL
path key and create it when absent (`endpoint.findUnique` followed by
`endpoint.create` on `null`).  The created endpoint's key is the path
parameter itself. -/
def findOrCreateEndpoint (db : DB) (endpointName : String) : DB × Endpoint :=
  match db.endpoints.find? (fun e => e.token == endpointName) with
  | some e => (db, e)
  | none =>
      let e : Endpoint := { id := db.nextId, token := endpointName, label := endpointName }
      ({ db with endpoints := db.endpoints ++ [e], nextId := db.nextId + 1 }, e)

/-- The unified-collection record built by the legacy CSP route
(`prisma.report.create` in src/src/app/api/report/[endpoint]/route.ts):
`type` is fixed to `"csp-violation"`, `url` and the four required CSP fields
default to `null` when falsy, `disposition` defaults to `"enforce"`, the
optional hyphenated fields are stored only when truthy, and the whole original
body is serialized into `rawReport`. -/
def mkLegacyUnifiedReport (db : DB) (eid : Nat) (userAgent : Option String)
    (body csp : Json) : Report :=
  { id := db.nextId
    type := Json.str "csp-violation"
    timestamp := db.time
    endpointId := eid
    url := (jsField csp "document-uri").orElseJson Json.null
    userAgent := userAgent.map Json.str
    documentUri := some ((jsField csp "document-uri").orElseJson Json.null)
    violatedDirective := some ((jsField csp "violated-directive").orElseJson Json.null)
    effectiveDirective := some ((jsField csp "effective-directive").orElseJson Json.null)
    originalPolicy := some ((jsField csp "original-policy").orElseJson Json.null)
    disposition := some ((jsField csp "disposition").orElseJson (Json.str "enforce"))
    referrer := (jsField csp "referrer").optIfTruthy
    blockedUri := (jsField csp "blocked-uri").optIfTruthy
    lineNumber := (jsField csp "line-number").optIfTruthy
    columnNumber := (jsField csp "column-number").optIfTruthy
    sourceFile := (jsField csp "source-file").optIfTruthy
    statusCode := (jsField csp "status-code").optIfTruthy
    scriptSample := (jsField csp "script-sample").optIfTruthy
    rawReport := some (Json.stringify body) }

/-- POST /api/report/[endpoint] (legacy CSP ingestion, current version): reject
with 400 when the `csp-report` wrapper is falsy, 404 when the token does not
resolve (never auto-creating), otherwise store one unified report.  A `null`
body makes `body['csp-report']` throw, surfaced as 500 by the catch block. -/
def postLegacyReport (db : DB) (token : String) (userAgent : Option String)
    (body : Json) : DB × ApiResponse :=
  if body.isNull then
    (db, { status := 500, error := some "Failed to save CSP report" })
  else
    let cspVal := jsField body "csp-report"
    if cspVal.truthy then
      match findEndpointByToken db token with
      | none =>
          (db, { status := 404
                 error := some ("Endpoint token \x27" ++ token ++
                   "\x27 not found. Please create the endpoint first.") })
      | some e =>
          let r := mkLegacyUnifiedReport db e.id userAgent body (cspVal.getD Json.null)
          ({ db with reports := db.reports ++ [r], nextId := db.nextId + 1 },
           { status := 201, success := true, id := some db.nextId, endpoint := some token })
    else
      (db, { status := 400, error := some "Invalid CSP report format" })

/-- The legacy-collection record built by the v1 route's legacy-CSP branch
(`prisma.cspReport.create`): required hyphenated fields default to `""` when
falsy, `disposition` to `"enforce"`, optional fields become `undefined`
(unset) when falsy. -/
def mkV1CspReport (db : DB) (eid : Nat) (userAgent : Option String)
    (body csp : Json) : CspReport :=
  { id := db.nextId
    timestamp := db.time
    endpointId := eid
    documentUri := (jsField csp "document-uri").orElseJson (Json.str "")
    violatedDirective := (jsField csp "violated-directive").orElseJson (Json.str "")
    effectiveDirective := (jsField csp "effective-directive").orElseJson (Json.str "")
    originalPolicy := (jsField csp "original-policy").orElseJson (Json.str "")
    disposition := (jsField csp "disposition").orElseJson (Json.str "enforce")
    referrer := (jsField csp "referrer").optIfTruthy
    blockedUri := (jsField csp "blocked-uri").optIfTruthy
    lineNumber := (jsField csp "line-number").optIfTruthy
    columnNumber := (jsField csp "column-number").optIfTruthy
    sourceFile := (jsField csp "source-file").optIfTruthy
    statusCode := (jsField csp "status-code").optIfTruthy
    scriptSample := (jsField csp "script-sample").optIfTruthy
    userAgent := userAgent.map Json.str
    rawReport := Json.stringify body }

/-- Validation of one modern report element: `!report.type || !report.url`
skips the element.  Truthiness is JavaScript's, so empty strings fail too. -/
def validModernReport (e : Json) : Bool :=
  (jsField e "type").truthy && (jsField e "url").truthy

/-- The unified-collection record built for an accepted modern report:
`user_agent` and `age` are copied only when truthy, `body` is stored opaquely
(defaulting to `null`). -/
def mkModernReport (db : DB) (eid : Nat) (e : Json) : Report :=
  { id := db.nextId
    type := (jsField e "type").getD Json.null
    timestamp := db.time
    endpointId := eid
    url := (jsField e "url").getD Json.null
    userAgent := (jsField e "user_agent").optIfTruthy
    body := some ((jsField e "body").orElseJson Json.null)
    age := (jsField e "age").optIfTruthy }

/-- Append one accepted modern report to the unified collection
(`prisma.report.create` inside the v1 loop). -/
def insertModernReport (db : DB) (eid : Nat) (e : Json) : DB :=
  { db with reports := db.reports ++ [mkModernReport db eid e], nextId := db.nextId + 1 }

/-- The per-element loop of the v1 modern path, threading the store and the
count of accepted reports (`createdReports.length`).  A `null` element makes
`report.type` throw, aborting the loop; the error carries the store as already
modified by the earlier iterations. -/
def processModernReports (eid : Nat) : DB → Nat → List Json → Except DB (DB × Nat)
  | db, count, [] => Except.ok (db, count)
  | db, count, e :: rest =>
      if e.isNull then Except.error db
      else if validModernReport e then
        processModernReports eid (insertModernReport db eid e) (count + 1) rest
      else
        processModernReports eid db count rest

/-- The modern branch of the v1 route after format detection: find-or-create
the endpoint, run the per-element loop, and answer 201 with the batch counts
and the detected format (or 500 when the loop threw). -/
def runModernBatch (db : DB) (endpointName : String) (reportsArray : List Json)
    (format : String) : DB × ApiResponse :=
  let fc := findOrCreateEndpoint db endpointName
  match processModernReports fc.2.id fc.1 0 reportsArray with
  | Except.error db2 => (db2, { status := 500, error := some "Failed to process reports" })
  | Except.ok (db2, count) =>
      (db2, { status := 201, success := true, endpoint := some endpointName
              reportsProcessed := some count
              totalReports := some reportsArray.length
              format := some format })

/-- POST /api/v1/report/[endpoint] (unified ingestion, current version):
a body with a truthy `csp-report` key takes the legacy branch (find-or-create
endpoint, one `cspReport` record, format `legacy-csp`); otherwise an array is
processed element-wise as `modern-array`, an object as the one-element batch
`modern-single`, and any other non-null value is rejected with 400.  A `null`
body makes `body['csp-report']` throw, surfaced as 500. -/
def postV1Report (db : DB) (endpointName : String) (userAgent : Option String)
    (body : Json) : DB × ApiResponse :=
  if body.isNull then
    (db, { status := 500, error := some "Failed to process reports" })
  else
    let cspVal := jsField body "csp-report"
    if cspVal.truthy then
      let fc := findOrCreateEndpoint db endpointName
      let r := mkV1CspReport fc.1 fc.2.id userAgent body (cspVal.getD Json.null)
      ({ fc.1 with cspReports := fc.1.cspReports ++ [r], nextId := fc.1.nextId + 1 },
       { status := 201, success := true, id := some fc.1.nextId
         endpoint := some endpointName, format := some "legacy-csp" })
    else
      match body with
      | Json.arr xs => runModernBatch db endpointName xs "modern-array"
      | Json.obj fs => runModernBatch db endpointName [Json.obj fs] "modern-single"
      | _ => (db, { status := 400, error := some "Expected a report object or an array of reports" })

/-- DELETE /api/endpoints?id=... (current endpoints route): 400 without an id,
404 for an unknown id; otherwise read the endpoint's label and live report
count, run `cspReport.deleteMany({ where: { endpointId } })`, delete the
endpoint, and answer with a confirmation message.  Modelled from the spec:
the Prisma schema is not among the sources, and the `_count.reports` relation
read here is taken to be the unified `Report` collection, per the spec's data
model (every Report holds a mandatory `endpointId` back-reference) and the
migration script that folds the legacy collection into `reports`. -/
def deleteEndpointApi (db : DB) (idParam : Option Nat) : DB × ApiResponse :=
  match idParam with
  | none => (db, { status := 400, error := some "Endpoint ID is required" })
  | some i =>
      match db.endpoints.find? (fun e => e.id == i) with
      | none => (db, { status := 404, error := some "Endpoint not found" })
      | some e =>
          let reportCount := (db.reports.filter (fun r => r.endpointId == i)).length
          ({ db with
               cspReports := db.cspReports.filter (fun r => r.endpointId != i)
               endpoints := db.endpoints.filter (fun x => x.id != i) },
           { status := 200, success := true
             message := some ("Endpoint \x22" ++ e.label ++ "\x22 and " ++
               toString reportCount ++ " associated reports deleted successfully") })

/-- Query parameters of GET /api/reports after URL parsing: the optional
`endpoint` token filter, the raw `type` filter string, 1-based `page` and
`limit` with their route defaults, and the optional `timeRange` name. -/
structure QueryParams where
  endpoint : Option String := none
  reportType : Option String := none
  page : Nat := 1
  limit : Nat := 50
  timeRange : Option String := none

/-- The time-window switch of the reports route: a named relative range maps
to a minimum timestamp computed from `now`; `all` (and any unrecognized
value) disables the time filter. -/
def timeFilterOf (now : Int) (timeRange : String) : Option Int :=
  if timeRange = "last_30m" then some (now - 30 * 60 * 1000)
  else if timeRange = "last_1h" then some (now - 60 * 60 * 1000)
  else if timeRange = "last_24h" then some (now - 24 * 60 * 60 * 1000)
  else if timeRange = "last_7d" then some (now - 7 * 24 * 60 * 60 * 1000)
  else if timeRange = "last_30d" then some (now - 30 * 24 * 60 * 60 * 1000)
  else none

/-- The relation filter `endpoint: { token }`: a record matches when its
`endpointId` resolves to an endpoint carrying the filtered token. -/
def endpointTokenMatches (db : DB) (eid : Nat) (token : String) : Bool :=
  match db.endpoints.find? (fun e => e.id == eid) with
  | some e => e.token == token
  | none => false

/-- The `buildWhereClause` filter of the reports route: the endpoint-token
restriction and the `timestamp: { gte }` restriction, each applied only when
its filter is present. -/
def matchesWhere (db : DB) (endpointFilter : Option String) (timeFilter : Option Int)
    (eid : Nat) (ts : Int) : Bool :=
  (match endpointFilter with
   | none => true
   | some tok => endpointTokenMatches db eid tok)
  && (match timeFilter with
      | none => true
      | some t => t ≤ ts)

/-- The record a query result row was transformed from: a legacy
`CspReport` or a unified `Report`. -/
inductive SourceRecord where
  | legacy (r : CspReport)
  | generic (r : Report)

/-- One row of the query response: the `reportType` discriminator and
`source` tag added by the route's transformation, the timestamp used for
sorting, and the underlying record whose fields are copied through. -/
structure TransformedReport where
  reportType : Json
  source : String
  timestamp : Int
  record : SourceRecord

/-- Transformation of a legacy collection row: `reportType` is the literal
`"csp-violation"` and `source` is `"legacy"`. -/
def transformCsp (r : CspReport) : TransformedReport :=
  { reportType := Json.str "csp-violation", source := "legacy"
    timestamp := r.timestamp, record := SourceRecord.legacy r }

/-- Transformation of a unified collection row: `reportType` is the row's own
`type` field and `source` is `"reporting-api"`. -/
def transformGeneric (r : Report) : TransformedReport :=
  { reportType := r.type, source := "reporting-api"
    timestamp := r.timestamp, record := SourceRecord.generic r }

/-- Insertion step of the timestamp-descending sort. -/
def insertDescBy (key : α → Int) (x : α) : List α → List α
  | [] => [x]
  | y :: ys => if key y ≤ key x then x :: y :: ys else y :: insertDescBy key x ys

/-- Sort a list descending by an integer key.  This models both the store's
`orderBy: { timestamp: 'desc' }` and the route's
`allReports.sort((a, b) => b.timestamp - a.timestamp)`; the claims depend
only on sortedness and membership, which any such sort provides. -/
def sortDescBy (key : α → Int) : List α → List α
  | [] => []
  | x :: xs => insertDescBy key x (sortDescBy key xs)

/-- Offset pagination applied only under a condition, modelling the route's
`skip: cond ? skip : 0, take: cond ? limit : undefined` at the store level and
`reportType === 'all' ? allReports.slice(skip, skip + limit) : allReports`
for the merged list. -/
def paginateIf (cond : Bool) (skip limit : Nat) (l : List α) : List α :=
  if cond then (l.drop skip).take limit else l

/-- Whether the legacy CSP collection is fetched/counted:
`!reportType || reportType === 'all' || reportType === 'csp'`. -/
def includesCsp : Option String → Bool
  | none => true
  | some s => s == "" || s == "all" || s == "csp"

/-- Whether the unified collection is fetched/counted:
`!reportType || reportType === 'all' || reportType === 'generic'`. -/
def includesGeneric : Option String → Bool
  | none => true
  | some s => s == "" || s == "all" || s == "generic"

/-- The offset `skip = (page - 1) * limit` of the route's pagination. -/
def skipOf (p : QueryParams) : Nat := (p.page - 1) * p.limit

/-- The legacy collection rows matching the endpoint and time-range filters
(`buildWhereClause` applied to `cspReport`, no type filter, no pagination). -/
def cspMatching (db : DB) (now : Int) (endpointFilter : Option String)
    (timeRange : Option String) : List CspReport :=
  db.cspReports.filter (fun r =>
    matchesWhere db endpointFilter (timeFilterOf now (timeRange.getD "last_1h"))
      r.endpointId r.timestamp)

/-- The unified collection rows matching the endpoint and time-range filters
(`buildWhereClause` applied to `report`, no type filter, no pagination). -/
def genericMatching (db : DB) (now : Int) (endpointFilter : Option String)
    (timeRange : Option String) : List Report :=
  db.reports.filter (fun r =>
    matchesWhere db endpointFilter (timeFilterOf now (timeRange.getD "last_1h"))
      r.endpointId r.timestamp)

/-- Count of the legacy collection rows matching the endpoint and time-range
filters: the route's `cspReport.count` query. -/
def cspFullCount (db : DB) (now : Int) (endpointFilter : Option String)
    (timeRange : Option String) : Nat :=
  (cspMatching db now endpointFilter timeRange).length

/-- Count of the unified collection rows matching the endpoint and time-range
filters: the route's `report.count` query. -/
def genericFullCount (db : DB) (now : Int) (endpointFilter : Option String)
    (timeRange : Option String) : Nat :=
  (genericMatching db now endpointFilter timeRange).length

/-- The transformed rows fetched from the legacy collection: sorted descending
by the store, paginated at the store only when `type=csp`, and skipped
entirely unless the csp side is included. -/
def cspRows (db : DB) (now : Int) (p : QueryParams) : List TransformedReport :=
  if includesCsp p.reportType then
    (paginateIf (p.reportType == some "csp") (skipOf p) p.limit
      (sortDescBy CspReport.timestamp (cspMatching db now p.endpoint p.timeRange))).map
      transformCsp
  else []

/-- The transformed rows fetched from the unified collection: sorted
descending by the store, paginated at the store only when `type=generic`, and
skipped entirely unless the generic side is included. -/
def genericRows (db : DB) (now : Int) (p : QueryParams) : List TransformedReport :=
  if includesGeneric p.reportType then
    (paginateIf (p.reportType == some "generic") (skipOf p) p.limit
      (sortDescBy Report.timestamp (genericMatching db now p.endpoint p.timeRange))).map
      transformGeneric
  else []

/-- The query result assembled by GET /api/reports. -/
structure QueryResult where
  reports : List TransformedReport
  totalCount : Nat
  totalPages : Nat
  currentPage : Nat
  itemsPerPage : Nat
  cspCount : Nat
  genericCount : Nat

/-- GET /api/reports (current version, after the auth gate): compute the two
unpaginated counts for the included collections, fetch each included
collection sorted descending (paginated at the store only when that
collection alone was requested), transform, merge, re-sort descending by
timestamp, and slice the merged list only for `type=all`. -/
def queryReports (db : DB) (now : Int) (p : QueryParams) : QueryResult :=
  let totalCspCount :=
    if includesCsp p.reportType then cspFullCount db now p.endpoint p.timeRange else 0
  let totalGenericCount :=
    if includesGeneric p.reportType then genericFullCount db now p.endpoint p.timeRange else 0
  let totalCount := totalCspCount + totalGenericCount
  { reports := paginateIf (p.reportType == some "all") (skipOf p) p.limit
      (sortDescBy TransformedReport.timestamp (cspRows db now p ++ genericRows db now p))
    totalCount := totalCount
    totalPages := (totalCount + p.limit - 1) / p.limit
    currentPage := p.page
    itemsPerPage := p.limit
    cspCount := totalCspCount
    genericCount := totalGenericCount }

/-- An empty store. -/
def emptyDB : DB :=
  { endpoints := [], reports := [], cspReports := [], nextId := 1, time := 100 }

/-- A registered endpoint used by the concrete scenarios. -/
def sampleEndpoint : Endpoint := { id := 1, token := "app-token", label := "my-app" }

/-- Store holding just `sampleEndpoint`. -/
def dbWithEndpoint : DB :=
  { endpoints := [sampleEndpoint], reports := [], cspReports := [], nextId := 2, time := 100 }

/-- A modern (generic) row of the unified collection referencing
`sampleEndpoint`. -/
def sampleGenericReport : Report :=
  { id := 10, type := Json.str "deprecation", timestamp := 50, endpointId := 1
    url := Json.str "https://example.com/x" }

/-- Store holding `sampleEndpoint` and one unified-collection report. -/
def dbWithGenericReport : DB :=
  { endpoints := [sampleEndpoint], reports := [sampleGenericReport], cspReports := []
    nextId := 11, time := 100 }

/-- A legacy-collection row referencing `sampleEndpoint`. -/
def sampleCspRow : CspReport :=
  { id := 20, timestamp := 60, endpointId := 1
    documentUri := Json.str "https://example.com/"
    violatedDirective := Json.str "script-src"
    effectiveDirective := Json.str "script-src"
    originalPolicy := Json.str "default-src"
    disposition := Json.str "enforce"
    rawReport := "raw" }

/-- Store holding `sampleEndpoint`, one unified row and one legacy row. -/
def dbWithBoth : DB :=
  { endpoints := [sampleEndpoint], reports := [sampleGenericReport]
    cspReports := [sampleCspRow], nextId := 21, time := 100 }

/-- A legacy CSP wrapper payload. -/
def legacyCspBody : Json :=
  Json.obj [("csp-report", Json.obj
    [("document-uri", Json.str "https://example.com/page"),
     ("violated-directive", Json.str "script-src")])]

/-- The store after ingesting `legacyCspBody` through the legacy route with
the valid token: one `"csp-violation"`-typed row in the unified collection. -/
def dbAfterLegacyIngest : DB :=
  (postLegacyReport dbWithEndpoint "app-token" none legacyCspBody).1

/-- A valid modern report element. -/
def goodModernElem : Json :=
  Json.obj [("type", Json.str "deprecation"), ("url", Json.str "https://example.com/a")]

/-- A modern report element missing `url`. -/
def badModernElem : Json := Json.obj [("type", Json.str "intervention")]

/-- Bodies that are neither objects nor arrays nor `null` (booleans, numbers,
strings): the shapes the v1 route's format detection rejects with 400. -/
def Json.isScalar : Json → Bool
  | .bool _ => true
  | .num _ => true
  | .str _ => true
  | _ => false

/-- A legacy wrapper payload whose `disposition` sub-field is present but is
the empty string (falsy). -/
def dispositionEmptyBody : Json :=
  Json.obj [("csp-report", Json.obj [("disposition", Json.str "")])]

/-- A legacy wrapper payload with an empty `csp-report` object. -/
def emptyCspWrapperBody : Json := Json.obj [("csp-report", Json.obj [])]

theorem mem_insertDescBy {α : Type} (key : α → Int) (x a : α) :
    ∀ l : List α, a ∈ insertDescBy key x l ↔ a = x ∨ a ∈ l := by
  intro l
  induction l with
  | nil => simp [insertDescBy]
  | cons y ys ih =>
      by_cases h : key y ≤ key x
      · simp [insertDescBy, h, List.mem_cons]
      · simp only [insertDescBy, h, if_false, List.mem_cons, ih]
        tauto

theorem pairwise_insertDescBy {α : Type} (key : α → Int) (x : α) :
    ∀ l : List α, l.Pairwise (fun a b => key b ≤ key a) →
      (insertDescBy key x l).Pairwise (fun a b => key b ≤ key a) := by
  intro l
  induction l with
  | nil => intro _; simp [insertDescBy]
  | cons y ys ih =>
      intro h
      rw [List.pairwise_cons] at h
      obtain ⟨hy, hys⟩ := h
      by_cases hc : key y ≤ key x
      · simp only [insertDescBy, if_pos hc]
        refine List.pairwise_cons.mpr ⟨?_, List.pairwise_cons.mpr ⟨hy, hys⟩⟩
        intro z hz
        rcases List.mem_cons.mp hz with hz | hz
        · exact hz ▸ hc
        · exact (hy z hz).trans hc
      · simp only [insertDescBy, if_neg hc]
        refine List.pairwise_cons.mpr ⟨?_, ih hys⟩
        intro z hz
        rcases (mem_insertDescBy key x z ys).mp hz with hz | hz
        · exact hz ▸ (le_of_lt (lt_of_not_le hc))
        · exact hy z hz

theorem pairwise_sortDescBy {α : Type} (key : α → Int) :
    ∀ l : List α, (sortDescBy key l).Pairwise (fun a b => key b ≤ key a) := by
  intro l
  induction l with
  | nil => simp [sortDescBy]
  | cons x xs ih =>
      simp only [sortDescBy]
      exact pairwise_insertDescBy key x _ ih

theorem mem_sortDescBy {α : Type} (key : α → Int) (a : α) :
    ∀ l : List α, a ∈ sortDescBy key l ↔ a ∈ l := by
  intro l
  induction l with
  | nil => simp [sortDescBy]
  | cons x xs ih =>
      simp only [sortDescBy, mem_insertDescBy, ih, List.mem_cons]

theorem paginateIf_sublist {α : Type} (cond : Bool) (skip limit : Nat) (l : List α) :
    List.Sublist (paginateIf cond skip limit l) l := by
  unfold paginateIf
  split
  · exact (List.take_sublist _ _).trans (List.drop_sublist _ _)
  · exact List.Sublist.refl l

theorem pairwise_paginateIf {α : Type} {R : α → α → Prop} (cond : Bool) (skip limit : Nat)
    {l : List α} (h : l.Pairwise R) : (paginateIf cond skip limit l).Pairwise R :=
  h.sublist (paginateIf_sublist cond skip limit l)

theorem mem_of_mem_paginateIf {α : Type} {cond : Bool} {skip limit : Nat} {l : List α} {a : α}
    (h : a ∈ paginateIf cond skip limit l) : a ∈ l :=
  (paginateIf_sublist cond skip limit l).subset h

theorem findOrCreateEndpoint_reports (db : DB) (n : String) :
    (findOrCreateEndpoint db n).1.reports = db.reports := by
  unfold findOrCreateEndpoint
  split <;> rfl

theorem insertModernReport_length (db : DB) (eid : Nat) (e : Json) :
    (insertModernReport db eid e).reports.length = db.reports.length + 1 := by
  simp [insertModernReport]

theorem processModernReports_ok (eid : Nat) :
    ∀ (xs : List Json) (db : DB) (count : Nat),
      (∀ e ∈ xs, e.isNull = false) →
      ∃ db2 : DB,
        processModernReports eid db count xs =
          Except.ok (db2, count + xs.countP (fun e => validModernReport e)) ∧
        db2.reports.length = db.reports.length + xs.countP (fun e => validModernReport e) := by
  intro xs
  induction xs with
  | nil =>
      intro db count _
      exact ⟨db, by simp [processModernReports], by simp⟩
  | cons e rest ih =>
      intro db count hnn
      have he : e.isNull = false := hnn e (List.mem_cons_self e rest)
      have hrest : ∀ x ∈ rest, x.isNull = false := fun x hx => hnn x (List.mem_cons_of_mem e hx)
      have hstep : processModernReports eid db count (e :: rest) =
          (if validModernReport e then
            processModernReports eid (insertModernReport db eid e) (count + 1) rest
          else processModernReports eid db count rest) := by
        simp [processModernReports, he]
      by_cases hv : validModernReport e
      · obtain ⟨db2, hrun, hlen⟩ := ih (insertModernReport db eid e) (count + 1) hrest
        refine ⟨db2, ?_, ?_⟩
        · have harith : count + List.countP (fun x => validModernReport x) (e :: rest) =
              (count + 1) + List.countP (fun x => validModernReport x) rest := by
            simp [List.countP_cons, hv]
            omega
          rw [hstep, if_pos hv, harith]
          exact hrun
        · rw [hlen, insertModernReport_length]
          simp [List.countP_cons, hv]
          omega
      · obtain ⟨db2, hrun, hlen⟩ := ih db count hrest
        refine ⟨db2, ?_, ?_⟩
        · rw [hstep, if_neg hv, hrun, List.countP_cons]
          simp [hv]
        · rw [hlen, List.countP_cons]
          simp [hv]

theorem isNull_eq_false_of_jsField_val {body : Json} {k : String} {v : Json}
    (h : jsField body k = JsVal.val v) : body.isNull = false := by
  cases body with
  | null => simp [jsField] at h
  | bool b => rfl
  | num n => rfl
  | str s => rfl
  | arr xs => rfl
  | obj fs => rfl

theorem mem_queryReports_cases (db : DB) (now : Int) (p : QueryParams)
    (t : TransformedReport) (ht : t ∈ (queryReports db now p).reports) :
    t ∈ cspRows db now p ∨ t ∈ genericRows db now p := by
  have h1 : t ∈ sortDescBy TransformedReport.timestamp
      (cspRows db now p ++ genericRows db now p) := mem_of_mem_paginateIf ht
  have h2 := (mem_sortDescBy TransformedReport.timestamp t _).mp h1
  exact List.mem_append.mp h2

/-- Claim C1 (code_bug evidence): a modern batch posted to the unified v1 path
with a token that resolves to no endpoint does not fail with 404 — the route
auto-creates the endpoint and persists the report, answering 201 with no
error, contradicting the repository's own endpoint-validation test script. -/
theorem c1_v1_unknown_token_autocreates :
    (postV1Report emptyDB "ghost-token" none (Json.arr [goodModernElem])).2.status = 201 ∧
    (postV1Report emptyDB "ghost-token" none (Json.arr [goodModernElem])).2.error = none ∧
    ((postV1Report emptyDB "ghost-token" none (Json.arr [goodModernElem])).1.endpoints.map
      Endpoint.token) = ["ghost-token"] ∧
    (postV1Report emptyDB "ghost-token" none (Json.arr [goodModernElem])).1.reports.length = 1 :=
  ⟨rfl, rfl, rfl, rfl⟩

/-- Claim C2 (code_bug evidence): deleting the endpoint that owns one
unified-collection report answers 200 with a message counting that report as
deleted, yet the report is still present afterwards (only the legacy
`cspReport` collection is cascaded) while the endpoint itself is gone. -/
theorem c2_delete_leaves_unified_reports :
    (deleteEndpointApi dbWithGenericReport (some 1)).2.status = 200 ∧
    (deleteEndpointApi dbWithGenericReport (some 1)).2.message =
      some "Endpoint \x22my-app\x22 and 1 associated reports deleted successfully" ∧
    (deleteEndpointApi dbWithGenericReport (some 1)).1.reports = [sampleGenericReport] ∧
    (deleteEndpointApi dbWithGenericReport (some 1)).1.endpoints = [] :=
  ⟨rfl, rfl, rfl, rfl⟩

/-- Claim C3 (counterexample): after ingesting a legacy CSP payload through
the current legacy route (which stores it in the unified collection with type
`"csp-violation"`), the query with reportType filter `generic` returns exactly
that record, and its discriminator is `"csp-violation"` — so the `generic`
filter does return a `"csp-violation"` record, refuting the claim. -/
theorem c3_generic_filter_returns_csp :
    ((queryReports dbAfterLegacyIngest 100
        { reportType := some "generic", timeRange := some "all" }).reports.map
      TransformedReport.reportType) = [Json.str "csp-violation"] :=
  rfl

/-- Claim C4 (counterexample): the modern-array payload `[null]` has one
element lacking `type` and `url` (k = N = 1), so the claim demands a 201 with
`reportsProcessed = 0`; instead, accessing `.type` on the null element throws
and the whole request fails with 500 carrying no counts. -/
theorem c4_null_element_fails_batch :
    (postV1Report dbWithEndpoint "app-token" none (Json.arr [Json.null])).2.status = 500 ∧
    (postV1Report dbWithEndpoint "app-token" none (Json.arr [Json.null])).2.status ≠ 201 ∧
    (postV1Report dbWithEndpoint "app-token" none (Json.arr [Json.null])).2.reportsProcessed =
      none :=
  ⟨rfl, by decide, rfl⟩

/-- Claim C5 (counterexample): a legacy payload whose `disposition` sub-field
is present but equal to `""` is stored with disposition `"enforce"`, not with
the sub-field's value — the `||`-default fires on any falsy value, not only on
absence as the claim states. -/
theorem c5_falsy_disposition_stored_as_enforce :
    jsField (Json.obj [("disposition", Json.str "")]) "disposition" =
      JsVal.val (Json.str "") ∧
    ((postLegacyReport dbWithEndpoint "app-token" none dispositionEmptyBody).1.reports.map
      Report.disposition) = [some (Json.str "enforce")] ∧
    (postLegacyReport dbWithEndpoint "app-token" none dispositionEmptyBody).2.status = 201 ∧
    Json.str "" ≠ Json.str "enforce" := by
  refine ⟨rfl, rfl, rfl, ?_⟩
  intro h
  injection h with h2
  exact absurd h2 (by decide)

/-- Claim C6 (counterexample): with one matching unified-collection report in
the store, a query filtered to `type=csp` reports `genericCount = 0` although
the full matching generic total is 1 — the counts are not independent of the
reportType filter value. -/
theorem c6_generic_count_zeroed_under_csp_filter :
    (queryReports dbWithGenericReport 100
      { reportType := some "csp", timeRange := some "all" }).genericCount = 0 ∧
    genericFullCount dbWithGenericReport 100 none (some "all") = 1 ∧
    (0 : Nat) ≠ 1 :=
  ⟨rfl, rfl, by decide⟩

/-- Claim C8 (counterexample): a JSON `null` body on the v1 path is answered
with 500 (the `body['csp-report']` access throws), not with the claimed 400,
though still with no store change. -/
theorem c8_null_body_gives_500 :
    (postV1Report dbWithEndpoint "app-token" none Json.null).2.status = 500 ∧
    (postV1Report dbWithEndpoint "app-token" none Json.null).2.status ≠ 400 ∧
    (postV1Report dbWithEndpoint "app-token" none Json.null).1 = dbWithEndpoint :=
  ⟨rfl, by decide, rfl⟩

/-- Claim C10 (counterexample): for a JSON `null` body the `csp-report` key is
certainly missing, so the claimed "400 if and only if the key is missing or
falsy" demands a 400; the legacy route instead answers 500, because the
property access on `null` throws before the wrapper check. -/
theorem c10_null_body_not_400 :
    (postLegacyReport dbWithEndpoint "app-token" none Json.null).2.status = 500 ∧
    (postLegacyReport dbWithEndpoint "app-token" none Json.null).2.status ≠ 400 :=
  ⟨rfl, by decide⟩

/-- Claim C3 (amended): under the `csp` filter every returned row carries the
discriminator `"csp-violation"`; under the `generic` filter every returned row
is drawn from the unified collection (source `"reporting-api"`), with no
restriction on its `type` field — which may itself be `"csp-violation"`. -/
theorem c3_amended_type_filters (db : DB) (now : Int) (p : QueryParams)
    (t : TransformedReport) (ht : t ∈ (queryReports db now p).reports) :
    (p.reportType = some "csp" → t.reportType = Json.str "csp-violation") ∧
    (p.reportType = some "generic" → t.source = "reporting-api") := by
  constructor
  · intro hp
    rcases mem_queryReports_cases db now p t ht with h | h
    · simp only [cspRows, hp] at h
      have hi : includesCsp (some "csp") = true := rfl
      rw [hi, if_pos rfl] at h
      obtain ⟨r, _, hr⟩ := List.mem_map.mp h
      rw [← hr]
      rfl
    · simp only [genericRows, hp] at h
      have hi : includesGeneric (some "csp") = false := rfl
      rw [hi] at h
      simp at h
  · intro hp
    rcases mem_queryReports_cases db now p t ht with h | h
    · simp only [cspRows, hp] at h
      have hi : includesCsp (some "generic") = false := rfl
      rw [hi] at h
      simp at h
    · simp only [genericRows, hp] at h
      have hi : includesGeneric (some "generic") = true := rfl
      rw [hi, if_pos rfl] at h
      obtain ⟨r, _, hr⟩ := List.mem_map.mp h
      rw [← hr]
      rfl

/-- Claim C3 witness: the amended theorem applied to the store holding one
legacy row and one unified row, under the `csp` filter. -/
theorem c3_amended_type_filters_witness :
    (some "csp" = some "csp" →
      (transformCsp sampleCspRow).reportType = Json.str "csp-violation") ∧
    (some "csp" = some "generic" → (transformCsp sampleCspRow).source = "reporting-api") :=
  c3_amended_type_filters dbWithBoth 100
    { reportType := some "csp", timeRange := some "all" } (transformCsp sampleCspRow)
    (show transformCsp sampleCspRow ∈ [transformCsp sampleCspRow] from
      List.mem_singleton.mpr rfl)

/-- Claim C4 (amended): for a modern-array payload of length N whose elements
are all non-null, the request succeeds with 201, `reportsProcessed` equals the
number of elements with truthy `type` and `url` (N − k), `totalReports` equals
N, and exactly N − k reports are appended; a `null` element instead aborts the
whole request with 500.  (The 500 half is witnessed by the counterexample.) -/
theorem c4_amended_batch_counts (db : DB) (tok : String) (ua : Option String)
    (xs : List Json) (hnn : xs.all (fun e => !e.isNull) = true) :
    (postV1Report db tok ua (Json.arr xs)).2.status = 201 ∧
    (postV1Report db tok ua (Json.arr xs)).2.reportsProcessed =
      some (xs.countP (fun e => validModernReport e)) ∧
    (postV1Report db tok ua (Json.arr xs)).2.totalReports = some xs.length ∧
    (postV1Report db tok ua (Json.arr xs)).1.reports.length =
      db.reports.length + xs.countP (fun e => validModernReport e) := by
  have hnn' : ∀ e ∈ xs, e.isNull = false := by
    intro e he
    have := List.all_eq_true.mp hnn e he
    simpa using this
  have hv1 : postV1Report db tok ua (Json.arr xs) =
      runModernBatch db tok xs "modern-array" := rfl
  obtain ⟨db2, hrun, hlen⟩ := processModernReports_ok (findOrCreateEndpoint db tok).2.id xs
    (findOrCreateEndpoint db tok).1 0 hnn'
  rw [hv1]
  refine ⟨?_, ?_, ?_, ?_⟩
  · simp only [runModernBatch, hrun]
  · simp only [runModernBatch, hrun]
    simp
  · simp only [runModernBatch, hrun]
  · simp only [runModernBatch, hrun]
    rw [hlen, findOrCreateEndpoint_reports]

/-- Claim C4 witness: the amended theorem at a concrete two-element batch with
one valid element and one element missing `url`. -/
theorem c4_amended_batch_counts_witness :
    (postV1Report dbWithEndpoint "app-token" none
      (Json.arr [goodModernElem, badModernElem])).2.status = 201 ∧
    (postV1Report dbWithEndpoint "app-token" none
      (Json.arr [goodModernElem, badModernElem])).2.reportsProcessed =
      some ([goodModernElem, badModernElem].countP (fun e => validModernReport e)) ∧
    (postV1Report dbWithEndpoint "app-token" none
      (Json.arr [goodModernElem, badModernElem])).2.totalReports =
      some [goodModernElem, badModernElem].length ∧
    (postV1Report dbWithEndpoint "app-token" none
      (Json.arr [goodModernElem, badModernElem])).1.reports.length =
      dbWithEndpoint.reports.length +
        [goodModernElem, badModernElem].countP (fun e => validModernReport e) :=
  c4_amended_batch_counts dbWithEndpoint "app-token" none [goodModernElem, badModernElem] rfl

/-- Claim C5 (amended): ingesting a truthy `csp-report` wrapper with a valid
token appends exactly one unified report whose type is `"csp-violation"`,
whose `url` is the `document-uri` sub-field when that sub-field is truthy and
JSON `null` otherwise, whose disposition is the `disposition` sub-field when
truthy and `"enforce"` when absent or falsy, and whose `rawReport` is the
serialization of the entire original body. -/
theorem c5_amended_legacy_ingest (db : DB) (tok : String) (ua : Option String)
    (body csp : Json) (e : Endpoint)
    (hc : jsField body "csp-report" = JsVal.val csp)
    (ht : csp.truthy = true)
    (he : findEndpointByToken db tok = some e) :
    (postLegacyReport db tok ua body).2.status = 201 ∧
    ∃ r : Report,
      (postLegacyReport db tok ua body).1.reports = db.reports ++ [r] ∧
      r.type = Json.str "csp-violation" ∧
      r.url = (jsField csp "document-uri").orElseJson Json.null ∧
      r.disposition = some ((jsField csp "disposition").orElseJson (Json.str "enforce")) ∧
      r.rawReport = some (Json.stringify body) := by
  have hnn : body.isNull = false := isNull_eq_false_of_jsField_val hc
  have hred2 : (postLegacyReport db tok ua body).1.reports =
      db.reports ++ [mkLegacyUnifiedReport db e.id ua body csp] := by
    simp only [postLegacyReport, hnn, Bool.false_eq_true, if_false, hc, JsVal.truthy, ht,
      if_true, he, JsVal.getD]
  have hred1 : (postLegacyReport db tok ua body).2.status = 201 := by
    simp only [postLegacyReport, hnn, Bool.false_eq_true, if_false, hc, JsVal.truthy, ht,
      if_true, he, JsVal.getD]
  exact ⟨hred1, mkLegacyUnifiedReport db e.id ua body csp, hred2, rfl, rfl, rfl, rfl⟩

/-- Claim C5 witness: the amended theorem at the concrete legacy payload and
registered endpoint. -/
theorem c5_amended_legacy_ingest_witness :
    (postLegacyReport dbWithEndpoint "app-token" none legacyCspBody).2.status = 201 ∧
    ∃ r : Report,
      (postLegacyReport dbWithEndpoint "app-token" none legacyCspBody).1.reports =
        dbWithEndpoint.reports ++ [r] ∧
      r.type = Json.str "csp-violation" ∧
      r.url = (jsField (Json.obj
        [("document-uri", Json.str "https://example.com/page"),
         ("violated-directive", Json.str "script-src")]) "document-uri").orElseJson Json.null ∧
      r.disposition = some ((jsField (Json.obj
        [("document-uri", Json.str "https://example.com/page"),
         ("violated-directive", Json.str "script-src")]) "disposition").orElseJson
          (Json.str "enforce")) ∧
      r.rawReport = some (Json.stringify legacyCspBody) :=
  c5_amended_legacy_ingest dbWithEndpoint "app-token" none legacyCspBody
    (Json.obj [("document-uri", Json.str "https://example.com/page"),
      ("violated-directive", Json.str "script-src")]) sampleEndpoint rfl rfl rfl

/-- Claim C6 (amended): `cspCount` and `genericCount` are separate counted
queries over the full set matching the endpoint and time-range filters with
the type filter removed — independent of the page window, which the counting
queries never see — whenever the respective collection is included by the
reportType filter; a count whose collection the filter excludes is reported
as 0. -/
theorem c6_amended_counts (db : DB) (now : Int) (p : QueryParams) :
    (queryReports db now p).cspCount =
      (if includesCsp p.reportType then cspFullCount db now p.endpoint p.timeRange else 0) ∧
    (queryReports db now p).genericCount =
      (if includesGeneric p.reportType then genericFullCount db now p.endpoint p.timeRange
       else 0) :=
  ⟨rfl, rfl⟩

/-- Claim C7: the reports list returned by the query service is sorted
descending by timestamp under every combination of endpoint, type, time-range
and pagination filters. -/
theorem c7_reports_sorted_desc (db : DB) (now : Int) (p : QueryParams) :
    (queryReports db now p).reports.Pairwise (fun a b => b.timestamp ≤ a.timestamp) :=
  pairwise_paginateIf _ _ _ (pairwise_sortDescBy TransformedReport.timestamp _)

/-- Claim C8 (amended): a v1 body that is neither an object nor an array nor
`null` is rejected with 400 and an `InvalidFormat`-style error, leaving the
store untouched (so before any endpoint lookup or write); a `null` body is
instead answered 500 — the property access throws first — likewise with no
lookup and no write. -/
theorem c8_amended_invalid_format (db : DB) (tok : String) (ua : Option String)
    (body : Json) (h : body.isScalar = true) :
    postV1Report db tok ua body =
      (db, { status := 400,
             error := some "Expected a report object or an array of reports" }) ∧
    postV1Report db tok ua Json.null =
      (db, { status := 500, error := some "Failed to process reports" }) := by
  constructor
  · cases body with
    | bool b => rfl
    | num n => rfl
    | str s => rfl
    | null => simp [Json.isScalar] at h
    | arr xs => simp [Json.isScalar] at h
    | obj fs => simp [Json.isScalar] at h
  · rfl

/-- Claim C8 witness: the amended theorem at the concrete string body. -/
theorem c8_amended_invalid_format_witness :
    postV1Report dbWithEndpoint "app-token" none (Json.str "not-a-report") =
      (dbWithEndpoint,
       { status := 400,
         error := some "Expected a report object or an array of reports" }) ∧
    postV1Report dbWithEndpoint "app-token" none Json.null =
      (dbWithEndpoint, { status := 500, error := some "Failed to process reports" }) :=
  c8_amended_invalid_format dbWithEndpoint "app-token" none (Json.str "not-a-report") rfl

/-- Claim C9: on the v1 path, a modern single-object payload (an object with
no `csp-report` key) leaves exactly the same store as the one-element array
containing that object, and the responses agree on every field except the
`format` discriminator, which is `modern-single` versus `modern-array`. -/
theorem c9_single_object_equiv_array (db : DB) (tok : String) (ua : Option String)
    (fs : List (String × Json)) (h : fs.lookup "csp-report" = none) :
    (postV1Report db tok ua (Json.obj fs)).1 =
      (postV1Report db tok ua (Json.arr [Json.obj fs])).1 ∧
    (postV1Report db tok ua (Json.obj fs)).2.status =
      (postV1Report db tok ua (Json.arr [Json.obj fs])).2.status ∧
    (postV1Report db tok ua (Json.obj fs)).2.error =
      (postV1Report db tok ua (Json.arr [Json.obj fs])).2.error ∧
    (postV1Report db tok ua (Json.obj fs)).2.success =
      (postV1Report db tok ua (Json.arr [Json.obj fs])).2.success ∧
    (postV1Report db tok ua (Json.obj fs)).2.id =
      (postV1Report db tok ua (Json.arr [Json.obj fs])).2.id ∧
    (postV1Report db tok ua (Json.obj fs)).2.endpoint =
      (postV1Report db tok ua (Json.arr [Json.obj fs])).2.endpoint ∧
    (postV1Report db tok ua (Json.obj fs)).2.reportsProcessed =
      (postV1Report db tok ua (Json.arr [Json.obj fs])).2.reportsProcessed ∧
    (postV1Report db tok ua (Json.obj fs)).2.totalReports =
      (postV1Report db tok ua (Json.arr [Json.obj fs])).2.totalReports ∧
    (postV1Report db tok ua (Json.obj fs)).2.message =
      (postV1Report db tok ua (Json.arr [Json.obj fs])).2.message ∧
    (postV1Report db tok ua (Json.obj fs)).2.format = some "modern-single" ∧
    (postV1Report db tok ua (Json.arr [Json.obj fs])).2.format = some "modern-array" := by
  have hobj : postV1Report db tok ua (Json.obj fs) =
      runModernBatch db tok [Json.obj fs] "modern-single" := by
    simp only [postV1Report, Json.isNull, Bool.false_eq_true, if_false, jsField, h,
      JsVal.truthy]
  have harr : postV1Report db tok ua (Json.arr [Json.obj fs]) =
      runModernBatch db tok [Json.obj fs] "modern-array" := rfl
  rw [hobj, harr]
  by_cases hv : validModernReport (Json.obj fs)
  · have hproc : processModernReports (findOrCreateEndpoint db tok).2.id
        (findOrCreateEndpoint db tok).1 0 [Json.obj fs] =
        Except.ok (insertModernReport (findOrCreateEndpoint db tok).1
          (findOrCreateEndpoint db tok).2.id (Json.obj fs), 1) := by
      simp [processModernReports, hv, Json.isNull]
    simp [runModernBatch, hproc]
  · have hproc : processModernReports (findOrCreateEndpoint db tok).2.id
        (findOrCreateEndpoint db tok).1 0 [Json.obj fs] =
        Except.ok ((findOrCreateEndpoint db tok).1, 0) := by
      simp [processModernReports, hv, Json.isNull]
    simp [runModernBatch, hproc]

/-- Claim C9 witness: the equivalence at the concrete valid modern element. -/
theorem c9_single_object_equiv_array_witness :
    (postV1Report dbWithEndpoint "app-token" none
        (Json.obj [("type", Json.str "deprecation"),
          ("url", Json.str "https://example.com/a")])).1 =
      (postV1Report dbWithEndpoint "app-token" none
        (Json.arr [Json.obj [("type", Json.str "deprecation"),
          ("url", Json.str "https://example.com/a")]])).1 ∧
    (postV1Report dbWithEndpoint "app-token" none
        (Json.obj [("type", Json.str "deprecation"),
          ("url", Json.str "https://example.com/a")])).2.status =
      (postV1Report dbWithEndpoint "app-token" none
        (Json.arr [Json.obj [("type", Json.str "deprecation"),
          ("url", Json.str "https://example.com/a")]])).2.status ∧
    (postV1Report dbWithEndpoint "app-token" none
        (Json.obj [("type", Json.str "deprecation"),
          ("url", Json.str "https://example.com/a")])).2.error =
      (postV1Report dbWithEndpoint "app-token" none
        (Json.arr [Json.obj [("type", Json.str "deprecation"),
          ("url", Json.str "https://example.com/a")]])).2.error ∧
    (postV1Report dbWithEndpoint "app-token" none
        (Json.obj [("type", Json.str "deprecation"),
          ("url", Json.str "https://example.com/a")])).2.success =
      (postV1Report dbWithEndpoint "app-token" none
        (Json.arr [Json.obj [("type", Json.str "deprecation"),
          ("url", Json.str "https://example.com/a")]])).2.success ∧
    (postV1Report dbWithEndpoint "app-token" none
        (Json.obj [("type", Json.str "deprecation"),
          ("url", Json.str "https://example.com/a")])).2.id =
      (postV1Report dbWithEndpoint "app-token" none
        (Json.arr [Json.obj [("type", Json.str "deprecation"),
          ("url", Json.str "https://example.com/a")]])).2.id ∧
    (postV1Report dbWithEndpoint "app-token" none
        (Json.obj [("type", Json.str "deprecation"),
          ("url", Json.str "https://example.com/a")])).2.endpoint =
      (postV1Report dbWithEndpoint "app-token" none
        (Json.arr [Json.obj [("type", Json.str "deprecation"),
          ("url", Json.str "https://example.com/a")]])).2.endpoint ∧
    (postV1Report dbWithEndpoint "app-token" none
        (Json.obj [("type", Json.str "deprecation"),
          ("url", Json.str "https://example.com/a")])).2.reportsProcessed =
      (postV1Report dbWithEndpoint "app-token" none
        (Json.arr [Json.obj [("type", Json.str "deprecation"),
          ("url", Json.str "https://example.com/a")]])).2.reportsProcessed ∧
    (postV1Report dbWithEndpoint "app-token" none
        (Json.obj [("type", Json.str "deprecation"),
          ("url", Json.str "https://example.com/a")])).2.totalReports =
      (postV1Report dbWithEndpoint "app-token" none
        (Json.arr [Json.obj [("type", Json.str "deprecation"),
          ("url", Json.str "https://example.com/a")]])).2.totalReports ∧
    (postV1Report dbWithEndpoint "app-token" none
        (Json.obj [("type", Json.str "deprecation"),
          ("url", Json.str "https://example.com/a")])).2.message =
      (postV1Report dbWithEndpoint "app-token" none
        (Json.arr [Json.obj [("type", Json.str "deprecation"),
          ("url", Json.str "https://example.com/a")]])).2.message ∧
    (postV1Report dbWithEndpoint "app-token" none
        (Json.obj [("type", Json.str "deprecation"),
          ("url", Json.str "https://example.com/a")])).2.format = some "modern-single" ∧
    (postV1Report dbWithEndpoint "app-token" none
        (Json.arr [Json.obj [("type", Json.str "deprecation"),
          ("url", Json.str "https://example.com/a")]])).2.format = some "modern-array" :=
  c9_single_object_equiv_array dbWithEndpoint "app-token" none
    [("type", Json.str "deprecation"), ("url", Json.str "https://example.com/a")] rfl

/-- Claim C10 (amended): for every non-null body, the legacy path answers 400
exactly when the `csp-report` key is missing or falsy (a null body is answered
500 instead, per the counterexample); the wrapper's contents are never
validated, so with a known token an empty `csp-report` object yields 201,
storing the four required fields as JSON `null` and disposition `"enforce"`. -/
theorem c10_amended_legacy_gate (db : DB) (tok : String) (ua : Option String)
    (body : Json) (hnn : body.isNull = false) :
    ((postLegacyReport db tok ua body).2.status = 400 ↔
      (jsField body "csp-report").truthy = false) ∧
    (jsField body "csp-report" = JsVal.val (Json.obj []) →
      ∀ e : Endpoint, findEndpointByToken db tok = some e →
        (postLegacyReport db tok ua body).2.status = 201 ∧
        (postLegacyReport db tok ua body).1.reports =
          db.reports ++ [mkLegacyUnifiedReport db e.id ua body (Json.obj [])] ∧
        (mkLegacyUnifiedReport db e.id ua body (Json.obj [])).documentUri = some Json.null ∧
        (mkLegacyUnifiedReport db e.id ua body (Json.obj [])).violatedDirective =
          some Json.null ∧
        (mkLegacyUnifiedReport db e.id ua body (Json.obj [])).effectiveDirective =
          some Json.null ∧
        (mkLegacyUnifiedReport db e.id ua body (Json.obj [])).originalPolicy =
          some Json.null ∧
        (mkLegacyUnifiedReport db e.id ua body (Json.obj [])).disposition =
          some (Json.str "enforce")) := by
  constructor
  · cases hb : (jsField body "csp-report").truthy with
    | false =>
        have h400 : (postLegacyReport db tok ua body).2.status = 400 := by
          simp [postLegacyReport, hnn, hb]
        simp [h400]
    | true =>
        have hstat : (postLegacyReport db tok ua body).2.status = 404 ∨
            (postLegacyReport db tok ua body).2.status = 201 := by
          simp only [postLegacyReport, hnn, Bool.false_eq_true, if_false, hb, if_true]
          cases findEndpointByToken db tok <;> simp
        constructor
        · intro h400
          rcases hstat with h | h <;> rw [h] at h400 <;> exact absurd h400 (by decide)
        · intro hfalse
          exact absurd hfalse (by simp)
  · intro hc e he
    have hred2 : (postLegacyReport db tok ua body).1.reports =
        db.reports ++ [mkLegacyUnifiedReport db e.id ua body (Json.obj [])] := by
      simp only [postLegacyReport, hnn, Bool.false_eq_true, if_false, hc, JsVal.truthy,
        Json.truthy, if_true, he, JsVal.getD]
    have hred1 : (postLegacyReport db tok ua body).2.status = 201 := by
      simp only [postLegacyReport, hnn, Bool.false_eq_true, if_false, hc, JsVal.truthy,
        Json.truthy, if_true, he, JsVal.getD]
    exact ⟨hred1, hred2, rfl, rfl, rfl, rfl, rfl⟩

/-- Claim C10 witness: the amended theorem at the empty-wrapper payload with
the registered endpoint. -/
theorem c10_amended_legacy_gate_witness :
    ((postLegacyReport dbWithEndpoint "app-token" none emptyCspWrapperBody).2.status = 400 ↔
      (jsField emptyCspWrapperBody "csp-report").truthy = false) ∧
    (jsField emptyCspWrapperBody "csp-report" = JsVal.val (Json.obj []) →
      ∀ e : Endpoint, findEndpointByToken dbWithEndpoint "app-token" = some e →
        (postLegacyReport dbWithEndpoint "app-token" none emptyCspWrapperBody).2.status =
          201 ∧
        (postLegacyReport dbWithEndpoint "app-token" none emptyCspWrapperBody).1.reports =
          dbWithEndpoint.reports ++
            [mkLegacyUnifiedReport dbWithEndpoint e.id none emptyCspWrapperBody
              (Json.obj [])] ∧
        (mkLegacyUnifiedReport dbWithEndpoint e.id none emptyCspWrapperBody
          (Json.obj [])).documentUri = some Json.null ∧
        (mkLegacyUnifiedReport dbWithEndpoint e.id none emptyCspWrapperBody
          (Json.obj [])).violatedDirective = some Json.null ∧
        (mkLegacyUnifiedReport dbWithEndpoint e.id none emptyCspWrapperBody
          (Json.obj [])).effectiveDirective = some Json.null ∧
        (mkLegacyUnifiedReport dbWithEndpoint e.id none emptyCspWrapperBody
          (Json.obj [])).originalPolicy = some Json.null ∧
        (mkLegacyUnifiedReport dbWithEndpoint e.id none emptyCspWrapperBody
          (Json.obj [])).disposition = some (Json.str "enforce")) :=
  c10_amended_legacy_gate dbWithEndpoint "app-token" none emptyCspWrapperBody rfl
